import Mathlib

/-!
Shallow embedding of the DayZeroAI onboarding-video pipeline
(script parsing, narration assembly, Redis job store, worker
orchestration, webhook intake, and email notification), together with
theorems settling the specification claims about it.
-/

/-! ## Python string primitives

Models of the CPython `str` operations used by the sources:
`str.strip`, `str.lower`, `str.split('\n')`, `str.split(':', 1)` and the
whitespace `str.split()`.  Strings are handled as their character lists.
-/

/-- Whitespace characters recognised by CPython `str.strip` / `str.split`
(ASCII part). -/
def isPySpace (c : Char) : Bool :=
  c = ' ' || c = '\t' || c = '\n' || c = '\r' || c = '\x0b' || c = '\x0c'

/-- Model of Python `str.strip()`: remove leading and trailing whitespace. -/
def pyStrip (l : List Char) : List Char :=
  ((l.dropWhile isPySpace).reverse.dropWhile isPySpace).reverse

/-- Model of Python `str.lower()` (ASCII case folding). -/
def pyLower (l : List Char) : List Char :=
  l.map Char.toLower

/-- Split a character list at every character satisfying `p`, keeping empty
components, as Python `str.split(sep)` does for a one-character separator. -/
def splitOnPred (p : Char → Bool) : List Char → List (List Char)
  | [] => [[]]
  | c :: cs =>
    if p c then
      [] :: splitOnPred p cs
    else
      match splitOnPred p cs with
      | [] => [[c]]
      | h :: t => (c :: h) :: t

/-- Model of Python `str.split()` with no argument: split on runs of
whitespace and discard empty components. -/
def pyWsSplit (s : String) : List String :=
  ((splitOnPred isPySpace s.data).filter (· ≠ [])).map List.asString

/-- Model of the `name.split()[0]` idiom used across the sources: `none`
models the `IndexError` raised when the split list is empty. -/
def firstName (name : String) : Option String :=
  (pyWsSplit name).head?

theorem splitOnPred_ne_nil (p : Char → Bool) (l : List Char) :
    splitOnPred p l ≠ [] := by
  cases l with
  | nil => simp [splitOnPred]
  | cons c cs =>
    simp only [splitOnPred]
    split
    · simp
    · cases splitOnPred p cs <;> simp

theorem splitOnPred_of_forall_not (p : Char → Bool) (l : List Char)
    (h : ∀ c ∈ l, ¬ p c) : splitOnPred p l = [l] := by
  induction l with
  | nil => rfl
  | cons c cs ih =>
    have hc : ¬ p c := h c (by simp)
    have ih' := ih (fun x hx => h x (by simp [hx]))
    simp [splitOnPred, hc, ih']

theorem splitOnPred_mem_nil (p : Char → Bool) (l : List Char)
    (h : ∀ c ∈ l, p c) : ∀ a ∈ splitOnPred p l, a = [] := by
  induction l with
  | nil =>
    intro a ha
    simpa [splitOnPred] using ha
  | cons c cs ih =>
    intro a ha
    have hc : p c := h c (by simp)
    simp only [splitOnPred, if_pos hc, List.mem_cons] at ha
    rcases ha with h1 | h1
    · exact h1
    · exact ih (fun x hx => h x (by simp [hx])) a h1

theorem splitOnPred_all_empty (p : Char → Bool) (l : List Char)
    (h : ∀ c ∈ l, p c) :
    (splitOnPred p l).filter (· ≠ []) = [] := by
  simp only [ne_eq, List.filter_eq_nil_iff, decide_not, Bool.not_eq_eq_eq_not,
    Bool.not_true, decide_eq_false_iff_not, not_not]
  exact splitOnPred_mem_nil p l h

theorem splitOnPred_not_space_mem (p : Char → Bool) (l : List Char)
    (c : Char) (hc : c ∈ l) (hp : ¬ p c) :
    (splitOnPred p l).filter (· ≠ []) ≠ [] := by
  induction l with
  | nil => cases hc
  | cons d ds ih =>
    simp only [splitOnPred]
    rcases List.mem_cons.mp hc with h | h
    · subst h
      simp only [if_neg hp]
      cases hsp : splitOnPred p ds with
      | nil => exact absurd hsp (splitOnPred_ne_nil p ds)
      | cons x xs => simp [List.filter]
    · by_cases hd : p d
      · simpa [hd, List.filter] using ih h
      · simp only [if_neg hd]
        cases hsp : splitOnPred p ds with
        | nil => exact absurd hsp (splitOnPred_ne_nil p ds)
        | cons x xs => simp [List.filter]

/-- The whitespace split of a string is empty exactly when the string has no
non-whitespace character. -/
theorem pyWsSplit_eq_nil_iff (s : String) :
    pyWsSplit s = [] ↔ ∀ c ∈ s.data, isPySpace c := by
  constructor
  · intro h c hc
    by_contra hns
    have hfil : (splitOnPred isPySpace s.data).filter (· ≠ []) = [] := by
      simpa [pyWsSplit, List.map_eq_nil_iff] using h
    exact splitOnPred_not_space_mem isPySpace s.data c hc (by simpa using hns) hfil
  · intro h
    have hfil := splitOnPred_all_empty isPySpace s.data h
    unfold pyWsSplit
    rw [hfil]
    rfl

/-! ## Script Stage — `ScriptGenerator._parse_script`

Embedding of `src/app/services/script_generator.py` lines 112-138.
-/

/-- Speaker normalization from `_parse_script`: the lower-cased prefix is
mapped to `host1`/`host2` when it matches one of the known aliases and is
left unchanged otherwise (there is no `else` branch in the source). -/
def normalizeSpeaker (speaker : String) : String :=
  if speaker = "alex" ∨ speaker = "host1" ∨ speaker = "speaker1" then "host1"
  else if speaker = "jordan" ∨ speaker = "host2" ∨ speaker = "speaker2" then "host2"
  else speaker

/-- Loop body of `_parse_script` for one line: strip the line, skip it when
empty or without a colon, otherwise split at the first colon
(`line.split(':', 1)`), strip and lower-case the speaker part, strip the
text part, normalize the speaker, and keep the entry when the text is
nonempty. -/
def parseScriptLine (line : List Char) : Option (String × String) :=
  if pyStrip line = [] then none
  else if (pyStrip line).contains ':' then
    if pyStrip (((pyStrip line).dropWhile (fun c => c ≠ ':')).tail) = [] then none
    else some
      (normalizeSpeaker
        (pyLower (pyStrip ((pyStrip line).takeWhile (fun c => c ≠ ':')))).asString,
       (pyStrip (((pyStrip line).dropWhile (fun c => c ≠ ':')).tail)).asString)
  else none

/-- Embedding of `ScriptGenerator._parse_script`: strip the response, split
it into lines on the newline character, and collect the entries kept by the
per-line loop body. -/
def parse_script (script_text : String) : List (String × String) :=
  ((splitOnPred (fun c => c = '\n') (pyStrip script_text.data)).filterMap parseScriptLine)

example : parse_script "Alex: Hello there!\njordan: Nice to meet you.\nHOST1: This should work too.\nspeaker2: And this as well." =
    [("host1", "Hello there!"), ("host2", "Nice to meet you."),
     ("host1", "This should work too."), ("host2", "And this as well.")] := by
  decide

example : parse_script "Bob: hi" = [("bob", "hi")] := by decide

example : parse_script "no colons here\nAlex: ok" = [("host1", "ok")] := by decide

example : parse_script "Alex: \nJordan: Valid text" = [("host2", "Valid text")] := by decide

/-! ## Narration Stage — `AudioGenerator.generate_audio`

Embedding of `src/app/services/audio_generator.py` lines 33-66.  A pydub
`AudioSegment` artifact is represented by the ordered list of pieces it
concatenates: per-entry synthesized clips and the fixed 500 ms pause.
The per-clip synthesized durations are a parameter (the speech synthesis
call is an external collaborator).
-/

/-- One piece of the concatenated narration artifact. -/
inductive AudioSeg where
  | clip (idx : Nat) (speaker : String)
  | pause
deriving DecidableEq, Repr, BEq

/-- The `audio_segments` list built by the loop in `generate_audio`: for
each script entry (in order) the synthesized clip is appended and then the
500 ms pause is appended. -/
def buildSegments : Nat → List (String × String) → List AudioSeg
  | _, [] => []
  | i, (speaker, _text) :: rest =>
    AudioSeg.clip i speaker :: AudioSeg.pause :: buildSegments (i + 1) rest

/-- Embedding of `AudioGenerator.generate_audio`: build the segment list,
combine it with `sum(audio_segments)` and export.  Python `sum` of an empty
list is the integer `0`, and `(0).export(...)` raises `AttributeError`;
for a nonempty list pydub concatenates the segments in order. -/
def generate_audio (script : List (String × String)) :
    Except String (List AudioSeg) :=
  match buildSegments 0 script with
  | [] => Except.error "AttributeError: sum of an empty segment list is the integer 0, which has no export method"
  | segs => Except.ok segs

/-- Duration in milliseconds of one segment, given the synthesized duration
of each clip; the pause inserted by the loop is always 500 ms. -/
def segDuration (clipDur : Nat → Nat) : AudioSeg → Nat
  | AudioSeg.clip i _ => clipDur i
  | AudioSeg.pause => 500

/-- Total duration in milliseconds of a narration artifact. -/
def narrationDuration (clipDur : Nat → Nat) (segs : List AudioSeg) : Nat :=
  (segs.map (segDuration clipDur)).sum

/-- Recognizer for the pause segment. -/
def isPause : AudioSeg → Bool
  | AudioSeg.pause => true
  | _ => false

/-- The narration layout as claim C7 words it: one 500 ms silence per clip,
placed before the clip (so one before the first clip and none after the
last).  This definition follows the claim text, not the source, and exists
only to be compared against `generate_audio`. -/
def claimedSilenceFirstLayout : Nat → List (String × String) → List AudioSeg
  | _, [] => []
  | i, (speaker, _text) :: rest =>
    AudioSeg.pause :: AudioSeg.clip i speaker :: claimedSilenceFirstLayout (i + 1) rest

theorem buildSegments_countP_pause (l : List (String × String)) :
    ∀ i, (buildSegments i l).countP isPause = l.length := by
  induction l with
  | nil => intro i; rfl
  | cons hd tl ih =>
    intro i
    obtain ⟨spk, txt⟩ := hd
    simp [buildSegments, List.countP_cons, isPause, ih (i + 1), Nat.add_comm]

theorem buildSegments_duration (clipDur : Nat → Nat) (l : List (String × String)) :
    ∀ i, narrationDuration clipDur (buildSegments i l)
      = ((List.range l.length).map (fun k => clipDur (i + k))).sum + l.length * 500 := by
  induction l with
  | nil => intro i; rfl
  | cons hd tl ih =>
    intro i
    obtain ⟨spk, txt⟩ := hd
    have hrange : (List.range (tl.length + 1)).map (fun k => clipDur (i + k))
        = clipDur i :: (List.range tl.length).map (fun k => clipDur (i + 1 + k)) := by
      rw [List.range_succ_eq_map]
      simp only [List.map_cons, Nat.add_zero, List.map_map]
      congr 1
      apply List.map_congr_left
      intro k _
      simp only [Function.comp_apply]
      congr 1
      omega
    simp only [buildSegments, narrationDuration, List.map_cons, List.sum_cons,
      segDuration, List.length_cons, hrange]
    have := ih (i + 1)
    simp only [narrationDuration] at this
    rw [this]
    ring

theorem buildSegments_getLast (l : List (String × String)) (h : l ≠ []) :
    ∀ i, (buildSegments i l).getLast? = some AudioSeg.pause := by
  induction l with
  | nil => exact absurd rfl h
  | cons hd tl ih =>
    intro i
    obtain ⟨spk, txt⟩ := hd
    by_cases htl : tl = []
    · subst htl; rfl
    · have h1 := ih htl (i + 1)
      simp only [buildSegments]
      rw [List.getLast?_cons_cons]
      cases htl2 : buildSegments (i + 1) tl with
      | nil =>
        rw [htl2] at h1
        simp at h1
      | cons x xs =>
        rw [htl2] at h1
        rw [List.getLast?_cons_cons]
        exact h1

theorem buildSegments_get (l : List (String × String)) :
    ∀ i j spk txt, l.get? j = some (spk, txt) →
      (buildSegments i l).get? (2 * j) = some (AudioSeg.clip (i + j) spk) ∧
      (buildSegments i l).get? (2 * j + 1) = some AudioSeg.pause := by
  induction l with
  | nil => intro i j spk txt h; simp at h
  | cons hd tl ih =>
    intro i j spk txt h
    obtain ⟨s0, t0⟩ := hd
    cases j with
    | zero =>
      simp only [List.get?] at h
      injection h with h
      injection h with h1 h2
      subst h1
      simp [buildSegments]
    | succ j' =>
      simp only [List.get?] at h
      obtain ⟨ih1, ih2⟩ := ih (i + 1) j' spk txt h
      have heq : i + 1 + j' = i + (j' + 1) := by omega
      rw [heq] at ih1
      have h2j : 2 * (j' + 1) = 2 * j' + 1 + 1 := by omega
      have h2j1 : 2 * (j' + 1) + 1 = 2 * j' + 1 + 1 + 1 := by omega
      refine ⟨?_, ?_⟩
      · rw [h2j]
        simpa only [buildSegments, List.get?] using ih1
      · rw [h2j1]
        simpa only [buildSegments, List.get?] using ih2

/-! ## Job Record Store — Redis hash semantics

Embedding of the Redis operations used by
`WebhookProcessor._store_job` (`src/app/services/webhook_processor.py`
lines 99-115) and `_update_job_status`
(`src/app/workers/video_worker.py` lines 79-102).  A Redis hash is a
field map together with the remaining TTL; `HSET` with a mapping merges
the given fields and leaves the TTL untouched, `EXPIRE` sets the TTL.
-/

/-- One Redis hash: the job record fields and the remaining TTL in
seconds (`none` means no expiry set). -/
structure RedisHash where
  fields : String → Option String
  ttl : Option Nat

/-- The empty hash (key absent). -/
def emptyHash : RedisHash :=
  { fields := fun _ => none, ttl := none }

/-- Redis `HSET key mapping=updates`: merge the updated fields into the
hash; fields not named in `updates` keep their stored value and the TTL is
not touched. -/
def hset (h : RedisHash) (updates : List (String × String)) : RedisHash :=
  { fields := fun k =>
      match updates.lookup k with
      | some v => some v
      | none => h.fields k,
    ttl := h.ttl }

/-- Redis `EXPIRE key t`: set the remaining TTL. -/
def expireKey (h : RedisHash) (t : Nat) : RedisHash :=
  { h with ttl := some t }

/-- The `VideoGenerationJob` pydantic model
(`src/app/models/webhook.py` lines 48-56). -/
structure VideoGenerationJob where
  job_id : String
  employee_id : String
  status : String
  created_at : String
  completed_at : Option String
  video_url : Option String
  error_message : Option String

/-- The Redis mapping built by `_store_job` from `job.model_dump()`:
`None` values are stored as the empty string, everything else as its
string form. -/
def dumpJob (j : VideoGenerationJob) : List (String × String) :=
  [("job_id", j.job_id),
   ("employee_id", j.employee_id),
   ("status", j.status),
   ("created_at", j.created_at),
   ("completed_at", j.completed_at.getD ""),
   ("video_url", j.video_url.getD ""),
   ("error_message", j.error_message.getD "")]

/-- Embedding of `WebhookProcessor._store_job`: `HSET` the dumped record,
then `EXPIRE` the key to the full 24-hour window (86400 seconds). -/
def store_job (h : RedisHash) (j : VideoGenerationJob) : RedisHash :=
  expireKey (hset h (dumpJob j)) 86400

/-- Python truthiness of an optional string argument (`if video_url:`):
`None` and the empty string are falsy. -/
def pyTruthy : Option String → Bool
  | none => false
  | some v => v ≠ ""

/-- The `updates` dict built by `_update_job_status`: always `status` and
`updated_at`; `completed_at` (and `video_url` when truthy) only when the
new status is `completed`; `error_message` only when truthy. -/
def statusUpdates (now status : String) (video_url error_message : Option String) :
    List (String × String) :=
  [("status", status), ("updated_at", now)]
    ++ (if status = "completed" then
          ("completed_at", now) ::
            (if pyTruthy video_url then [("video_url", video_url.getD "")] else [])
        else [])
    ++ (if pyTruthy error_message then [("error_message", error_message.getD "")] else [])

/-- Embedding of `_update_job_status`: one `HSET` of the updates mapping
(and nothing else — in particular no `EXPIRE`). -/
def update_job_status (h : RedisHash) (now status : String)
    (video_url error_message : Option String) : RedisHash :=
  hset h (statusUpdates now status video_url error_message)

/-- A sample stored job record used by concrete counterexamples. -/
def sampleJob : VideoGenerationJob :=
  { job_id := "job1", employee_id := "EMP_001", status := "queued",
    created_at := "2025-10-12T09:00:00", completed_at := none,
    video_url := none, error_message := none }

/-- The hash after intake stored `sampleJob`. -/
def sampleHash : RedisHash :=
  store_job emptyHash sampleJob

/-- The same record later in its life, when 100 seconds of TTL remain. -/
def decayedHash : RedisHash :=
  { fields := sampleHash.fields, ttl := some 100 }

/-! ## Notification Stage — `NotificationService`

Embedding of `src/app/services/notification_service.py`.  The SendGrid
transport is a parameter: `Except.error e` models `self.sg.send` raising,
`Except.ok code` models a response with that status code.
-/

/-- Outcome of a notification entry point: the value returned to the
caller (`Except.error` models an uncaught exception) and whether the
structured fallback record was logged. -/
structure NotifyOutcome where
  result : Except String Bool
  fallbackLogged : Bool

/-- Embedding of `NotificationService._send_fallback_notification`
(lines 196-228): computes `name.split()[0]` (raising `IndexError` on a
whitespace-only name), logs the structured fallback record and returns
`True`. -/
def send_fallback_notification (name : String) : NotifyOutcome :=
  match firstName name with
  | none => { result := Except.error "IndexError: list index out of range", fallbackLogged := false }
  | some _ => { result := Except.ok true, fallbackLogged := true }

/-- Embedding of `NotificationService.send_video_ready_email`
(lines 14-147): with `use_fallback` it delegates to the fallback logger;
otherwise it computes `name.split()[0]` outside any `try`, then attempts
the SendGrid send — status 202 returns `True`, any other status returns
`False`, and a raised transport error is caught and `False` returned.
No fallback record is logged on this path. -/
def send_video_ready_email (name : String) (use_fallback : Bool)
    (transport : Except String Nat) : NotifyOutcome :=
  if use_fallback then send_fallback_notification name
  else
    match firstName name with
    | none => { result := Except.error "IndexError: list index out of range", fallbackLogged := false }
    | some _ =>
      match transport with
      | Except.ok code =>
        if code = 202 then { result := Except.ok true, fallbackLogged := false }
        else { result := Except.ok false, fallbackLogged := false }
      | Except.error _ => { result := Except.ok false, fallbackLogged := false }

/-- Embedding of `NotificationService.send_error_notification`
(lines 149-194): computes `name.split()[0]`, attempts the send and
returns `status_code == 202`; a raised transport error is caught and
`False` returned.  It takes no `use_fallback` argument and never logs the
fallback record. -/
def send_error_notification (name : String) (transport : Except String Nat) :
    NotifyOutcome :=
  match firstName name with
  | none => { result := Except.error "IndexError: list index out of range", fallbackLogged := false }
  | some _ =>
    match transport with
    | Except.ok code => { result := Except.ok (code == 202), fallbackLogged := false }
    | Except.error _ => { result := Except.ok false, fallbackLogged := false }

/-! ## Orchestrator — `generate_onboarding_video` worker

Embedding of `src/app/workers/video_worker.py` lines 11-77.  The
`VideoGenerator` pipeline call is a parameter (`Except.error e` models a
stage raising with message `e`, `Except.ok p` a produced video path).
-/

/-- A notification call made by the worker. -/
inductive NotifyEv where
  | videoReady (email name url : String)
  | errorNote (email name err : String)
deriving DecidableEq, Repr, BEq

/-- Recognizer for the failure-path notification call. -/
def isErrorNote : NotifyEv → Bool
  | NotifyEv.errorNote _ _ _ => true
  | _ => false

/-- Result of one worker execution: the job record hash after the run,
the notification calls made (in order), and the value returned or the
exception re-raised. -/
structure WorkerRun where
  hash : RedisHash
  notifications : List NotifyEv
  result : Except String (String × String)

/-- Embedding of the worker `generate_onboarding_video`: set the record to
`processing`; on pipeline success set it to `completed` with the video
URL and send the video-ready email; on any pipeline exception set it to
`failed` with the error message and re-raise — no notification call is
made on that path. -/
def worker_generate_onboarding_video (h : RedisHash) (now job_id email name : String)
    (pipeline : Except String String) : WorkerRun :=
  let h1 := update_job_status h now "processing" none none
  match pipeline with
  | Except.ok _videoPath =>
    let video_url := "/videos/" ++ job_id ++ ".mp4"
    let h2 := update_job_status h1 now "completed" (some video_url) none
    { hash := h2,
      notifications := [NotifyEv.videoReady email name video_url],
      result := Except.ok (job_id, video_url) }
  | Except.error e =>
    let h2 := update_job_status h1 now "failed" none (some e)
    { hash := h2, notifications := [], result := Except.error e }

/-! ## Intake — `WebhookProcessor.process_user_onboarding_webhook`

Embedding of `src/app/services/webhook_processor.py` lines 45-86.  The
store write and the queue enqueue are parameters; the whole body is
wrapped in `try/except Exception`, which returns `None`.
-/

/-- Whether a modelled collaborator call succeeded. -/
def exceptOk : Except String Unit → Bool
  | Except.ok _ => true
  | Except.error _ => false

/-- Embedding of `process_user_onboarding_webhook`: store the job record,
enqueue the descriptor, and return the job id; any exception from either
collaborator is caught and `None` returned instead. -/
def process_user_onboarding_webhook (job_id : String)
    (storeResult enqueueResult : Except String Unit) : Option String :=
  match storeResult with
  | Except.error _ => none
  | Except.ok _ =>
    match enqueueResult with
    | Except.error _ => none
    | Except.ok _ => some job_id

/-! ## Visual Stage / success email — `name.split()[0]` preconditions

Embeddings of the title construction in
`VideoGenerator._create_welcome_slide`
(`src/app/services/video_generator.py` line 141) and
`SlideGenerator.create_welcome_slide`
(`src/app/services/slide_generator.py` lines 95-96).
-/

/-- Title drawn by `VideoGenerator._create_welcome_slide`:
`f"Welcome, {employee_data.name.split()[0]}!"`; `Except.error` models the
`IndexError` on a name without whitespace-separated tokens. -/
def create_welcome_slide_title (name : String) : Except String String :=
  match firstName name with
  | none => Except.error "IndexError: list index out of range"
  | some fn => Except.ok ("Welcome, " ++ fn ++ "!")

/-- Title drawn by `SlideGenerator.create_welcome_slide`:
`first_name = employee_data.name.split()[0]` then
`f"Welcome, {first_name}!"`. -/
def slide_create_welcome_title (name : String) : Except String String :=
  match firstName name with
  | none => Except.error "IndexError: list index out of range"
  | some fn => Except.ok ("Welcome, " ++ fn ++ "!")

/-! ## Helper lemmas on the string primitives -/

theorem dropWhile_length_eq (p : Char → Bool) (l : List Char)
    (h : (l.dropWhile p).length = l.length) : l.dropWhile p = l := by
  cases l with
  | nil => rfl
  | cons c cs =>
    rw [List.dropWhile_cons] at h ⊢
    by_cases hc : p c
    · rw [if_pos hc] at h
      have hle := (List.dropWhile_sublist (l := cs) p).length_le
      simp only [List.length_cons] at h
      omega
    · rw [if_neg hc]

theorem dropWhile_cons_false (p : Char → Bool) (c : Char) (cs : List Char)
    (h : (c :: cs).dropWhile p = c :: cs) : p c = false := by
  by_contra hc
  have hc' : p c = true := by revert hc; cases p c <;> simp
  rw [List.dropWhile_cons, if_pos hc'] at h
  have hle := (List.dropWhile_sublist (l := cs) p).length_le
  have := congrArg List.length h
  simp only [List.length_cons] at this
  omega

theorem dropWhile_cons_of_neg (p : Char → Bool) (c : Char) (cs : List Char)
    (h : p c = false) : (c :: cs).dropWhile p = c :: cs := by
  rw [List.dropWhile_cons, if_neg (by simp [h])]

theorem dropWhile_append_fix (p : Char → Bool) (l r : List Char)
    (hl : l.dropWhile p = l) (hr : r.dropWhile p = r) :
    (l ++ r).dropWhile p = l ++ r := by
  cases l with
  | nil => simpa using hr
  | cons c cs =>
    have hc := dropWhile_cons_false p c cs hl
    rw [List.cons_append, List.dropWhile_cons, if_neg (by simp [hc])]

theorem pyStrip_front_fix (l : List Char) (h : pyStrip l = l) :
    l.dropWhile isPySpace = l := by
  apply dropWhile_length_eq
  have h1 : (pyStrip l).length ≤ (l.dropWhile isPySpace).length := by
    unfold pyStrip
    calc (((l.dropWhile isPySpace).reverse.dropWhile isPySpace).reverse).length
        = ((l.dropWhile isPySpace).reverse.dropWhile isPySpace).length := by
          rw [List.length_reverse]
      _ ≤ ((l.dropWhile isPySpace).reverse).length :=
          (List.dropWhile_sublist isPySpace).length_le
      _ = (l.dropWhile isPySpace).length := by rw [List.length_reverse]
  have h2 : (l.dropWhile isPySpace).length ≤ l.length :=
    (List.dropWhile_sublist isPySpace).length_le
  have h3 : (pyStrip l).length = l.length := by rw [h]
  omega

theorem pyStrip_back_fix (l : List Char) (h : pyStrip l = l) :
    l.reverse.dropWhile isPySpace = l.reverse := by
  have hf := pyStrip_front_fix l h
  unfold pyStrip at h
  rw [hf] at h
  have := congrArg List.reverse h
  simpa using this

theorem takeWhile_append_colon (spk body : List Char) (h : ':' ∉ spk) :
    (spk ++ ':' :: body).takeWhile (fun c => c ≠ ':') = spk := by
  induction spk with
  | nil => simp [List.takeWhile_cons]
  | cons c cs ih =>
    have hc : c ≠ ':' := fun hh => h (by simp [hh])
    have ih' := ih (fun hm => h (by simp [hm]))
    simp only [List.cons_append, List.takeWhile_cons, ih']
    simp [hc]

theorem dropWhile_append_colon (spk body : List Char) (h : ':' ∉ spk) :
    (spk ++ ':' :: body).dropWhile (fun c => c ≠ ':') = ':' :: body := by
  induction spk with
  | nil => simp [List.dropWhile_cons]
  | cons c cs ih =>
    have hc : c ≠ ':' := fun hh => h (by simp [hh])
    have ih' := ih (fun hm => h (by simp [hm]))
    simp only [List.cons_append, List.dropWhile_cons, ih']
    simp [hc]

theorem pyStrip_line_fix (spk body : List Char)
    (hs : pyStrip spk = spk) (hb : pyStrip body = body) (hbne : body ≠ []) :
    pyStrip (spk ++ ':' :: body) = spk ++ ':' :: body := by
  have hf : (spk ++ ':' :: body).dropWhile isPySpace = spk ++ ':' :: body :=
    dropWhile_append_fix isPySpace spk (':' :: body) (pyStrip_front_fix spk hs)
      (dropWhile_cons_of_neg isPySpace ':' body (by decide))
  have hrev : (spk ++ ':' :: body).reverse = body.reverse ++ ':' :: spk.reverse := by
    simp [List.reverse_append, List.append_assoc]
  have hrevne : body.reverse ≠ [] := by
    intro hh
    exact hbne (by simpa using congrArg List.reverse hh)
  have hg : (body.reverse ++ ':' :: spk.reverse).dropWhile isPySpace
      = body.reverse ++ ':' :: spk.reverse :=
    dropWhile_append_fix isPySpace body.reverse (':' :: spk.reverse)
      (pyStrip_back_fix body hb)
      (dropWhile_cons_of_neg isPySpace ':' spk.reverse (by decide))
  unfold pyStrip
  rw [hf, hrev, hg, ← hrev, List.reverse_reverse]

theorem parseScriptLine_keeps (spk body : List Char)
    (hcolon : ':' ∉ spk) (hs : pyStrip spk = spk) (hb : pyStrip body = body)
    (hbne : body ≠ []) :
    parseScriptLine (spk ++ ':' :: body)
      = some (normalizeSpeaker (pyLower spk).asString, body.asString) := by
  have hline := pyStrip_line_fix spk body hs hb hbne
  have hne : ¬ (spk ++ ':' :: body = []) := by simp
  have hcont : (spk ++ ':' :: body).contains ':' = true := by simp
  have htk := takeWhile_append_colon spk body hcolon
  have hdw := dropWhile_append_colon spk body hcolon
  unfold parseScriptLine
  rw [hline]
  rw [if_neg hne, if_pos hcont, hdw, htk, hs]
  simp only [List.tail_cons, hb]
  rw [if_neg hbne]

/-! ## Claim theorems -/

/-- Claim C1: the claim states that for the empty script `generate_audio`
still produces a near-empty exportable artifact and returns its path.  The
code instead raises: `sum([])` is the integer `0` and `0` has no `export`
method, so the call fails with `AttributeError` before any artifact is
written.  This theorem evaluates the embedded code at the failing input. -/
theorem C1_empty_script_export_error :
    generate_audio [] = Except.error
      "AttributeError: sum of an empty segment list is the integer 0, which has no export method" := rfl

/-- Claim C2 counterexample: a line whose speaker prefix is neither a
host1 alias nor a host2 alias is not dropped; it is kept under its raw
lower-cased prefix.  The claim, as stated, requires `parse_script "Bob: hi"`
to be `[]`. -/
theorem C2_counterexample_unknown_speaker_kept :
    parse_script "Bob: hi" = [("bob", "hi")] ∧ parse_script "Bob: hi" ≠ [] := by
  decide

/-- Claim C2 (amended): parsing keeps every line that contains a colon and
nonempty stripped text; a known alias prefix is normalized to
`host1`/`host2`, and any other prefix is kept under its raw lower-cased
stripped form rather than dropped.  Only colon-less lines and lines with
empty text are dropped. -/
theorem C2_parse_keeps_every_colon_line (spk body : List Char)
    (hcolon : ':' ∉ spk) (hn1 : '\n' ∉ spk) (hn2 : '\n' ∉ body)
    (hs : pyStrip spk = spk) (hb : pyStrip body = body) (hbne : body ≠ []) :
    parse_script (spk ++ ':' :: body).asString
      = [(normalizeSpeaker (pyLower spk).asString, body.asString)] ∧
    (∀ s : String, s ≠ "alex" → s ≠ "host1" → s ≠ "speaker1" →
      s ≠ "jordan" → s ≠ "host2" → s ≠ "speaker2" → normalizeSpeaker s = s) := by
  constructor
  · have hlines : splitOnPred (fun c => c = '\n') (spk ++ ':' :: body)
        = [spk ++ ':' :: body] := by
      apply splitOnPred_of_forall_not
      intro c hcmem
      simp only [decide_eq_true_eq]
      rcases List.mem_append.mp hcmem with h1 | h1
      · intro heq; subst heq; exact hn1 h1
      · rcases List.mem_cons.mp h1 with h2 | h2
        · subst h2; decide
        · intro heq; subst heq; exact hn2 h2
    have hdata : ((spk ++ ':' :: body).asString).data = spk ++ ':' :: body := rfl
    unfold parse_script
    rw [hdata, pyStrip_line_fix spk body hs hb hbne, hlines]
    simp [List.filterMap_cons, parseScriptLine_keeps spk body hcolon hs hb hbne]
  · intro s h1 h2 h3 h4 h5 h6
    simp [normalizeSpeaker, h1, h2, h3, h4, h5, h6]

/-- Witness for the amended C2 theorem at the concrete prefix `Bob` and
text `hi`. -/
theorem C2_parse_keeps_witness :
    parse_script ("Bob".data ++ ':' :: "hi".data).asString
      = [(normalizeSpeaker (pyLower "Bob".data).asString, "hi".data.asString)] :=
  (C2_parse_keeps_every_colon_line "Bob".data "hi".data (by decide) (by decide)
    (by decide) (by decide) (by decide) (by decide)).1

/-- Claim C3 counterexample: when the pipeline raises, the worker at
`src/app/workers/video_worker.py` marks the job failed and re-raises but
makes zero notification calls — the failure path of the Notification
Stage (`send_error_notification`) is never invoked, not invoked exactly
once as claimed. -/
theorem C3_counterexample_no_failure_notification :
    (worker_generate_onboarding_video sampleHash "2025-10-12T10:00:00" "job1"
      "ana@example.com" "Ana Lee" (Except.error "script boom")).notifications.countP
        isErrorNote = 0 ∧
    ¬ ((worker_generate_onboarding_video sampleHash "2025-10-12T10:00:00" "job1"
      "ana@example.com" "Ana Lee" (Except.error "script boom")).notifications.countP
        isErrorNote = 1) := by
  decide

/-- Claim C3 (amended): on any pipeline exception the worker transitions
the Job Record to `failed` (recording the message when it is nonempty)
and re-raises the error, and it makes no notification call at all on that
path — the Notification Stage failure entry point is invoked zero times. -/
theorem C3_worker_failure_path (h : RedisHash) (now job_id email name e : String) :
    (worker_generate_onboarding_video h now job_id email name (Except.error e)).notifications
        = [] ∧
    (worker_generate_onboarding_video h now job_id email name (Except.error e)).result
        = Except.error e ∧
    (worker_generate_onboarding_video h now job_id email name
        (Except.error e)).hash.fields "status" = some "failed" ∧
    (e ≠ "" →
      (worker_generate_onboarding_video h now job_id email name
        (Except.error e)).hash.fields "error_message" = some e) := by
  refine ⟨rfl, rfl, ?_, ?_⟩
  · simp [worker_generate_onboarding_video, update_job_status, hset, statusUpdates,
      List.lookup]
  · intro he
    have htr : pyTruthy (some e) = true := by simp [pyTruthy, he]
    simp [worker_generate_onboarding_video, update_job_status, hset, statusUpdates,
      htr, List.lookup]

/-- Witness for the amended C3 theorem at a concrete failing run. -/
theorem C3_worker_failure_witness :
    (worker_generate_onboarding_video sampleHash "t0" "job1" "ana@example.com"
      "Ana Lee" (Except.error "boom")).hash.fields "error_message" = some "boom" :=
  (C3_worker_failure_path sampleHash "t0" "job1" "ana@example.com" "Ana Lee"
    "boom").2.2.2 (by decide)

/-- A Job Record optional attribute counts as set when it holds a nonempty
value: `_store_job` writes `None` attributes as the empty string, so both
a missing field and the empty string mean "not set". -/
def isSetField : Option String → Bool
  | none => false
  | some s => s ≠ ""

/-- Claim C4 counterexample: after the stored record transitions
`processing → failed`, the status is terminal and `error_message` is set,
but `completed_at` still holds the empty placeholder written at intake —
`_update_job_status` adds `completed_at` only when the new status is
`completed`, so "`completed_at` is set iff the status is terminal" fails. -/
theorem C4_counterexample_failed_without_completed_at :
    (update_job_status (update_job_status sampleHash "t1" "processing" none none)
      "t2" "failed" none (some "boom")).fields "status" = some "failed" ∧
    isSetField ((update_job_status (update_job_status sampleHash "t1" "processing"
      none none) "t2" "failed" none (some "boom")).fields "error_message") = true ∧
    isSetField ((update_job_status (update_job_status sampleHash "t1" "processing"
      none none) "t2" "failed" none (some "boom")).fields "completed_at") = false := by
  decide

/-- Claim C4 (amended): `_update_job_status` writes `completed_at` exactly
when the new status is `completed` (together with `updated_at` and, when
truthy, `video_url`); every other transition — in particular
`processing → failed` — leaves the stored `completed_at` unchanged, so a
failed job keeps the empty placeholder rather than a completion time. -/
theorem C4_completed_at_only_on_completed (h : RedisHash) (now status : String)
    (vu em : Option String) :
    (status ≠ "completed" →
      (update_job_status h now status vu em).fields "completed_at"
        = h.fields "completed_at") ∧
    (update_job_status h now "completed" vu em).fields "completed_at" = some now := by
  constructor
  · intro hst
    cases htr : pyTruthy em <;>
      simp [update_job_status, hset, statusUpdates, hst, htr, List.lookup]
  · cases htr : pyTruthy em <;> cases hvu : pyTruthy vu <;>
      simp [update_job_status, hset, statusUpdates, htr, hvu, List.lookup]

/-- Witness for the amended C4 theorem on a concrete failed transition. -/
theorem C4_completed_at_witness :
    (update_job_status sampleHash "t2" "failed" none (some "boom")).fields
      "completed_at" = sampleHash.fields "completed_at" :=
  (C4_completed_at_only_on_completed sampleHash "t2" "failed" none
    (some "boom")).1 (by decide)

/-- Claim C5 counterexample: a status update on a record whose remaining
TTL has decayed to 100 seconds leaves the TTL at 100 seconds —
`_update_job_status` performs only `HSET`, which does not touch the TTL,
so this write does not refresh the retention window to 86400 seconds. -/
theorem C5_counterexample_update_keeps_ttl :
    (update_job_status decayedHash "t3" "processing" none none).ttl = some 100 ∧
    ¬ ((update_job_status decayedHash "t3" "processing" none none).ttl
        = some 86400) := by
  constructor
  · rfl
  · intro h
    simp [update_job_status, hset, decayedHash] at h

/-- Claim C5 (amended): only the intake write (`_store_job`) sets the TTL,
to the full 24-hour window; every subsequent `_update_job_status` write
leaves the remaining TTL exactly as it was. -/
theorem C5_only_store_sets_ttl (h : RedisHash) (j : VideoGenerationJob)
    (now status : String) (vu em : Option String) :
    (store_job h j).ttl = some 86400 ∧
    (update_job_status h now status vu em).ttl = h.ttl :=
  ⟨rfl, rfl⟩

/-- Claim C6 counterexample: when the transport reports a non-202 status
or raises, `send_video_ready_email` and `send_error_notification` return
`False` to the caller and do not log the structured fallback record — the
claim requires the fallback record to be logged and success returned. -/
theorem C6_counterexample_no_fallback_on_transport_failure :
    (send_video_ready_email "Ana Lee" false (Except.ok 500)).result
        = Except.ok false ∧
    (send_video_ready_email "Ana Lee" false (Except.ok 500)).fallbackLogged
        = false ∧
    (send_error_notification "Ana Lee" (Except.error "connection refused")).result
        = Except.ok false ∧
    (send_error_notification "Ana Lee" (Except.error "connection refused")).fallbackLogged
        = false := by
  refine ⟨rfl, rfl, rfl, rfl⟩

/-- Claim C6 (amended): when the primary transport raises or reports a
non-202 status, both notification entry points catch the error and return
`False` (not success) without raising and without logging the fallback
record; the fallback record is logged only when the caller explicitly
passes `use_fallback=True`, which skips the transport entirely and
returns `True`. -/
theorem C6_transport_failure_returns_false (name fn : String)
    (hfn : firstName name = some fn) :
    (∀ code : Nat, code ≠ 202 →
      send_video_ready_email name false (Except.ok code)
        = { result := Except.ok false, fallbackLogged := false }) ∧
    (∀ err : String,
      send_video_ready_email name false (Except.error err)
        = { result := Except.ok false, fallbackLogged := false }) ∧
    (∀ code : Nat, code ≠ 202 →
      send_error_notification name (Except.ok code)
        = { result := Except.ok false, fallbackLogged := false }) ∧
    (∀ err : String,
      send_error_notification name (Except.error err)
        = { result := Except.ok false, fallbackLogged := false }) ∧
    (∀ transport : Except String Nat,
      send_video_ready_email name true transport
        = { result := Except.ok true, fallbackLogged := true }) := by
  refine ⟨?_, ?_, ?_, ?_, ?_⟩
  · intro code hcode
    simp [send_video_ready_email, hfn, hcode]
  · intro err
    simp [send_video_ready_email, hfn]
  · intro code hcode
    simp [send_error_notification, hfn, hcode]
  · intro err
    simp [send_error_notification, hfn]
  · intro transport
    simp [send_video_ready_email, send_fallback_notification, hfn]

/-- Witness for the amended C6 theorem at a concrete name and a raising
transport. -/
theorem C6_transport_failure_witness :
    send_video_ready_email "Ana Lee" false (Except.error "timeout")
      = { result := Except.ok false, fallbackLogged := false } :=
  (C6_transport_failure_returns_false "Ana Lee" "Ana" (by decide)).2.1 "timeout"

/-- Claim C7 counterexample: for a one-entry script the artifact produced
by `generate_audio` is the clip followed by the 500 ms silence, while the
claim places the silence before the first clip and none after the last. -/
theorem C7_counterexample_silence_trails_clip :
    generate_audio [("host1", "hi")]
      = Except.ok [AudioSeg.clip 0 "host1", AudioSeg.pause] ∧
    claimedSilenceFirstLayout 0 [("host1", "hi")]
      = [AudioSeg.pause, AudioSeg.clip 0 "host1"] ∧
    ¬ (generate_audio [("host1", "hi")]
        = Except.ok (claimedSilenceFirstLayout 0 [("host1", "hi")])) := by
  refine ⟨rfl, rfl, ?_⟩
  simp [generate_audio, buildSegments, claimedSilenceFirstLayout]

/-- Claim C7 (amended): for every nonempty script the narration artifact
is the per-entry clips in script order with exactly `len(script)` fixed
500 ms silences, one trailing each clip (so one after the last clip and
none before the first), and the total narration duration equals the sum
of the clip durations plus `len(script) × 500` ms. -/
theorem C7_narration_layout (clipDur : Nat → Nat)
    (script : List (String × String)) (hne : script ≠ []) :
    ∃ segs, generate_audio script = Except.ok segs ∧
      segs.countP isPause = script.length ∧
      narrationDuration clipDur segs
        = ((List.range script.length).map clipDur).sum + script.length * 500 ∧
      segs.getLast? = some AudioSeg.pause ∧
      (∀ j spk txt, script.get? j = some (spk, txt) →
        segs.get? (2 * j) = some (AudioSeg.clip j spk) ∧
        segs.get? (2 * j + 1) = some AudioSeg.pause) := by
  refine ⟨buildSegments 0 script, ?_, ?_, ?_, ?_, ?_⟩
  · cases script with
    | nil => exact absurd rfl hne
    | cons hd tl =>
      obtain ⟨spk0, txt0⟩ := hd
      simp [generate_audio, buildSegments]
  · exact buildSegments_countP_pause script 0
  · have hmap : (List.range script.length).map (fun k => clipDur (0 + k))
        = (List.range script.length).map clipDur := by
      apply List.map_congr_left
      intro k _
      simp
    rw [buildSegments_duration clipDur script 0, hmap]
  · exact buildSegments_getLast script hne 0
  · intro j spk txt hj
    have := buildSegments_get script 0 j spk txt hj
    simpa using this

/-- Witness for the amended C7 theorem at a concrete one-entry script with
a 1000 ms synthesized clip. -/
theorem C7_narration_layout_witness :
    narrationDuration (fun _ => 1000) [AudioSeg.clip 0 "host1", AudioSeg.pause]
      = ((List.range 1).map (fun _ => 1000)).sum + 1 * 500 := by
  obtain ⟨segs, h1, _h2, h3, _h4, _h5⟩ :=
    C7_narration_layout (fun _ => 1000) [("host1", "hi")] (by decide)
  have h0 : generate_audio [("host1", "hi")]
      = Except.ok [AudioSeg.clip 0 "host1", AudioSeg.pause] := rfl
  rw [h0] at h1
  injection h1 with h1
  rw [← h1] at h3
  simpa using h3

/-- Claim C8: `_update_job_status` merges fields — it writes only keys
from the set {status, updated_at, completed_at, video_url, error_message},
every field not named in the update keeps its previously stored value, and
a later `failed` transition for a job that previously reached `completed`
leaves the earlier `video_url` in the record alongside the new
`error_message`. -/
theorem C8_update_job_status_merges :
    (∀ (h : RedisHash) (now status : String) (vu em : Option String) (k : String),
      (statusUpdates now status vu em).lookup k = none →
      (update_job_status h now status vu em).fields k = h.fields k) ∧
    (∀ (now status : String) (vu em : Option String),
      ((statusUpdates now status vu em).map Prod.fst) ⊆
        ["status", "updated_at", "completed_at", "video_url", "error_message"]) ∧
    ((update_job_status (update_job_status (store_job emptyHash sampleJob) "t1"
        "completed" (some "/videos/job1.mp4") none) "t2" "failed" none
        (some "boom")).fields "video_url" = some "/videos/job1.mp4" ∧
     (update_job_status (update_job_status (store_job emptyHash sampleJob) "t1"
        "completed" (some "/videos/job1.mp4") none) "t2" "failed" none
        (some "boom")).fields "error_message" = some "boom" ∧
     (update_job_status (update_job_status (store_job emptyHash sampleJob) "t1"
        "completed" (some "/videos/job1.mp4") none) "t2" "failed" none
        (some "boom")).fields "status" = some "failed") := by
  refine ⟨?_, ?_, by decide, by decide, by decide⟩
  · intro h now status vu em k hlk
    simp [update_job_status, hset, hlk]
  · intro now status vu em
    by_cases h1 : status = "completed" <;> by_cases h2 : pyTruthy vu <;>
      by_cases h3 : pyTruthy em <;>
        simp [statusUpdates, h1, h2, h3, List.subset_def]

/-- Witness for C8 on a concrete update that does not name `video_url`. -/
theorem C8_update_merges_witness :
    (update_job_status sampleHash "t9" "processing" none none).fields "video_url"
      = sampleHash.fields "video_url" :=
  C8_update_job_status_merges.1 sampleHash "t9" "processing" none none
    "video_url" (by decide)

/-- Claim C9: `process_user_onboarding_webhook` never propagates an
exception: when storing the job record and enqueueing both succeed it
returns the job id, and when either raises it catches the exception and
returns `None` instead. -/
theorem C9_webhook_never_propagates (job_id : String)
    (storeResult enqueueResult : Except String Unit) :
    (exceptOk storeResult = true → exceptOk enqueueResult = true →
      process_user_onboarding_webhook job_id storeResult enqueueResult
        = some job_id) ∧
    (exceptOk storeResult = false ∨ exceptOk enqueueResult = false →
      process_user_onboarding_webhook job_id storeResult enqueueResult = none) := by
  cases storeResult <;> cases enqueueResult <;>
    simp [process_user_onboarding_webhook, exceptOk]

/-- Witness for C9 when the store write raises. -/
theorem C9_webhook_witness :
    process_user_onboarding_webhook "job1" (Except.error "redis down")
      (Except.ok ()) = none :=
  (C9_webhook_never_propagates "job1" (Except.error "redis down")
    (Except.ok ())).2 (Or.inl rfl)

/-- Claim C10: when the employee name has no non-whitespace character,
`name.split()[0]` raises `IndexError` in welcome-slide creation (both the
`VideoGenerator` and `SlideGenerator` variants) and in the success-email
construction; a name with at least one whitespace-separated token is the
precondition under which these operations produce their value. -/
theorem C10_name_token_precondition (name : String) :
    ((∀ c ∈ name.data, isPySpace c) →
      create_welcome_slide_title name
          = Except.error "IndexError: list index out of range" ∧
      slide_create_welcome_title name
          = Except.error "IndexError: list index out of range" ∧
      (∀ transport : Except String Nat,
        (send_video_ready_email name false transport).result
          = Except.error "IndexError: list index out of range")) ∧
    ((∃ c ∈ name.data, ¬ isPySpace c) →
      ∃ fn, firstName name = some fn ∧
        create_welcome_slide_title name = Except.ok ("Welcome, " ++ fn ++ "!") ∧
        slide_create_welcome_title name = Except.ok ("Welcome, " ++ fn ++ "!")) := by
  constructor
  · intro hall
    have hnil : pyWsSplit name = [] := (pyWsSplit_eq_nil_iff name).mpr hall
    have hfn : firstName name = none := by simp [firstName, hnil]
    refine ⟨?_, ?_, ?_⟩
    · simp [create_welcome_slide_title, hfn]
    · simp [slide_create_welcome_title, hfn]
    · intro transport
      simp [send_video_ready_email, hfn]
  · intro hex
    have hne : pyWsSplit name ≠ [] := by
      intro hnil
      obtain ⟨c, hc, hns⟩ := hex
      exact hns ((pyWsSplit_eq_nil_iff name).mp hnil c hc)
    cases hsp : pyWsSplit name with
    | nil => exact absurd hsp hne
    | cons fn rest =>
      refine ⟨fn, ?_, ?_, ?_⟩
      · simp [firstName, hsp]
      · simp [create_welcome_slide_title, firstName, hsp]
      · simp [slide_create_welcome_title, firstName, hsp]

/-- Witness for C10 at the whitespace-only name and at a two-token name. -/
theorem C10_name_token_witness :
    create_welcome_slide_title "   "
      = Except.error "IndexError: list index out of range" :=
  ((C10_name_token_precondition "   ").1 (by decide)).1
